import Mathlib

/-!
Verification of the zclaw hosted web relay (`scripts/web_relay.py`).

The Python source is shallowly embedded: each Python helper becomes a Lean
function of the same name (up to Lean naming rules) operating on `String`
(Python `str`, modelled as its list of characters) and `Option`/`Except`
(Python `None` and exceptions).  Stateful code — the serial bridge's
request/response loop and the voice sideband state machine — is embedded as
explicit state-passing functions over small state structures, with the
asynchronous serial input abstracted as a list of observed events.
-/

namespace ZClaw

/-- Whitespace recognised by Python's default `str.strip` for the ASCII
range (the embedded strings never contain non-ASCII whitespace). -/
def pyIsSpace (c : Char) : Bool :=
  c = ' ' || c = '\t' || c = '\n' || c = '\r' || c = '\x0b' || c = '\x0c'

/-- List-level form of Python `str.strip()`: drop leading and trailing
whitespace characters. -/
def pyStripList (l : List Char) : List Char :=
  ((l.dropWhile pyIsSpace).reverse.dropWhile pyIsSpace).reverse

/-- Python `value.strip()`. -/
def pyStrip (s : String) : String :=
  ⟨pyStripList s.data⟩

/-- Python `value.lower()` (ASCII case folding; the relay only compares
ASCII configuration strings). -/
def pyLower (s : String) : String :=
  ⟨s.data.map Char.toLower⟩

/-- Python `s.startswith(p)`. -/
def pyStartsWith (s p : String) : Bool :=
  decide (s.data.take p.data.length = p.data)

/-- Python `s[n:]` for a nonnegative index `n` (character based). -/
def pyDrop (s : String) (n : Nat) : String :=
  ⟨s.data.drop n⟩

/-- Text before the first occurrence of `sep`, i.e. `s.split(sep, 1)[0]`. -/
def pyBeforeChar (s : String) (sep : Char) : String :=
  ⟨s.data.takeWhile (fun c => c ≠ sep)⟩

/-- Python `s.partition(":")` restricted to the two components the relay
uses: the text before the first colon and the text after it (empty when no
colon occurs). -/
def pyPartitionColon (s : String) : String × String :=
  match s.data.dropWhile (fun c => c ≠ ':') with
  | [] => (⟨s.data⟩, "")
  | _ :: after => (⟨s.data.takeWhile (fun c => c ≠ ':')⟩, ⟨after⟩)

/-- Digit run of Python `int(str)`: digits with single underscores allowed
between digits (an underscore must be followed by a digit; a leading
underscore is rejected by the caller). -/
def pyIntCore : Nat → List Char → Option Nat
  | acc, [] => some acc
  | acc, c :: rest =>
    if c.isDigit then pyIntCore (acc * 10 + (c.toNat - 48)) rest
    else if c = '_' then
      match rest with
      | [] => none
      | d :: _ => if d.isDigit then pyIntCore acc rest else none
    else none

/-- Unsigned part of Python `int(str)`: nonempty and starting with a digit. -/
def pyIntValue (l : List Char) : Option Nat :=
  match l with
  | [] => none
  | c :: _ => if c.isDigit then pyIntCore 0 l else none

/-- Python `int(str)`: strip whitespace, optional sign, base-10 digits
(`None` models the `ValueError` raised on malformed input). -/
def pyParseInt (s : String) : Option Int :=
  match pyStripList s.data with
  | '+' :: rest => (pyIntValue rest).map Int.ofNat
  | '-' :: rest => (pyIntValue rest).map (fun n => -(Int.ofNat n))
  | rest => (pyIntValue rest).map Int.ofNat

/- ### Security policy (`web_relay.py` lines 70-163) -/

/-- Source: `normalize_api_key` — strip, empty becomes `None`. -/
def normalize_api_key (value : Option String) : Option String :=
  match value with
  | none => none
  | some v =>
    let stripped := pyStrip v
    if stripped = "" then none else some stripped

/-- Source: `normalize_origin` — identical normalization. -/
def normalize_origin (value : Option String) : Option String :=
  match value with
  | none => none
  | some v =>
    let stripped := pyStrip v
    if stripped = "" then none else some stripped

/-- Unsafe bytes (tab, CR, LF) removed from the URL by `urlsplit` before
any parsing. -/
def removeUnsafeUrlChars (s : String) : String :=
  ⟨s.data.filter (fun c => c ≠ '\t' && c ≠ '\r' && c ≠ '\n')⟩

/-- Scheme characters accepted by `urllib.parse` after the leading letter. -/
def isSchemeChar (c : Char) : Bool :=
  c.isAlphanum || c = '+' || c = '-' || c = '.'

/-- Scheme recognition of `urllib.parse.urlsplit`: when the text before the
first colon is a nonempty ASCII-letter-led run of scheme characters, it is
the (lowercased) scheme and the remainder follows the colon; otherwise the
whole input is the remainder. -/
def splitScheme (s : String) : String × String :=
  let before := s.data.takeWhile (fun c => c ≠ ':')
  match s.data.dropWhile (fun c => c ≠ ':') with
  | [] => ("", s)
  | _ :: after =>
    match before with
    | [] => ("", s)
    | c :: _ =>
      if c.isAlpha && before.all isSchemeChar then
        (⟨before.map Char.toLower⟩, ⟨after⟩)
      else ("", s)

/-- Hexadecimal digit as accepted by `ipaddress` hextets and by the
IPvFuture shape. -/
def isHexDigitPy (c : Char) : Bool :=
  c.isDigit || (decide ('a' ≤ c) && decide (c ≤ 'f')) || (decide ('A' ≤ c) && decide (c ≤ 'F'))

/-- Python `str.split(sep)` for a single-character separator. -/
def splitChar : List Char → Char → List (List Char)
  | [], _ => [[]]
  | c :: rest, sep =>
    if c = sep then [] :: splitChar rest sep
    else
      match splitChar rest sep with
      | [] => [[c]]
      | h :: t => (c :: h) :: t

/-- Numeric value of a run of decimal digits. -/
def digitsToNat (l : List Char) : Nat :=
  l.foldl (fun a c => a * 10 + (c.toNat - 48)) 0

/-- Octet rule of `ipaddress.IPv4Address._parse_octet`: one to three
decimal digits, no leading zero unless the octet is `0`, value at most
255. -/
def ipv4OctetOk (l : List Char) : Bool :=
  decide (l ≠ []) && l.all Char.isDigit && decide (l.length ≤ 3) &&
    (decide (l = ['0']) || decide (l.headD 'x' ≠ '0')) &&
    decide (digitsToNat l ≤ 255)

/-- Address rule of `ipaddress.IPv4Address`: exactly four valid octets. -/
def ipv4AddrOk (l : List Char) : Bool :=
  let octets := splitChar l '.'
  decide (octets.length = 4) && octets.all ipv4OctetOk

/-- Hextet rule of `ipaddress.IPv6Address._parse_hextet`: one to four
hexadecimal digits. -/
def hextetOk (l : List Char) : Bool :=
  decide (l ≠ []) && decide (l.length ≤ 4) && l.all isHexDigitPy

/-- Interior positions (neither first nor last) of empty groups in a
colon-split address; one such position marks a `::`. -/
def interiorEmpties (parts : List (List Char)) : List Nat :=
  (((List.range parts.length).drop 1).dropLast).filter (fun i => decide (parts.getD i ['x'] = []))

/-- Group acceptance of `IPv6Address._ip_int_from_string` after the
embedded-IPv4 rewrite: at most nine groups, at most one `::`, a leading
or trailing empty group only as part of a `::`, at most seven explicit
groups beside a `::` (or exactly eight without one), and hex parsing of
every explicit group. -/
def ipv6PartsOk (parts : List (List Char)) : Bool :=
  if parts.length > 9 then false
  else
    match interiorEmpties parts with
    | [] => decide (parts.length = 8) && parts.all hextetOk
    | [skip] =>
      let n := parts.length
      let headEmpty := decide (parts.getD 0 ['x'] = [])
      let lastEmpty := decide (parts.getD (n - 1) ['x'] = [])
      let partsHi := if headEmpty then skip - 1 else skip
      let partsLo := if lastEmpty then n - skip - 2 else n - skip - 1
      (!headEmpty || decide (skip = 1)) &&
        (!lastEmpty || decide (skip = n - 2)) &&
        decide (partsHi + partsLo ≤ 7) &&
        (parts.take partsHi).all hextetOk &&
        (parts.drop (n - partsLo)).all hextetOk
    | _ => false

/-- Address text accepted by `ipaddress.IPv6Address`: an optional
`%scope` suffix (nonempty, no further `%`), at least three colon-split
groups, and an optional embedded IPv4 tail which is rewritten into two
always-valid hextets. -/
def ipv6AddrOk (l : List Char) : Bool :=
  let addr := l.takeWhile (fun c => c ≠ '%')
  let scopeRest := l.dropWhile (fun c => c ≠ '%')
  let scopeOk :=
    match scopeRest with
    | [] => true
    | _ :: scope => decide (scope ≠ []) && decide ('%' ∉ scope)
  scopeOk &&
    (let parts0 := splitChar addr ':'
     if parts0.length < 3 then false
     else
       let lastPart := parts0.getD (parts0.length - 1) []
       if decide ('.' ∈ lastPart) then
         ipv4AddrOk lastPart && ipv6PartsOk (parts0.dropLast ++ [['0'], ['0']])
       else ipv6PartsOk parts0)

/-- Bracketed-host validation of `urllib.parse._check_bracketed_host`
(CPython 3.11): a `v`-led host must match the IPvFuture shape
`v<hex+>.<nonempty tail>`, anything else must parse as an IPv6 address —
an IPv4 host or an unparsable host raises (and an IPv4 text is never a
valid IPv6 text, so the non-`v` case reduces to IPv6 acceptance). -/
def bracketedHostOk (host : List Char) : Bool :=
  match host with
  | 'v' :: rest =>
    let hexRun := rest.takeWhile isHexDigitPy
    let after := rest.dropWhile isHexDigitPy
    decide (hexRun ≠ []) &&
      (match after with
       | '.' :: tail => decide (tail ≠ []) && decide ('\n' ∉ tail)
       | _ => false)
  | _ => ipv6AddrOk host

/-- Netloc checks of `urlsplit` after `_splitnetloc`: square brackets must
be balanced, and the text between the first `[` and the next `]` must be
a valid bracketed host. -/
def netlocOk (netloc : String) : Bool :=
  let l := netloc.data
  let hasOpen := decide ('[' ∈ l)
  let hasClose := decide (']' ∈ l)
  if hasOpen && !hasClose || hasClose && !hasOpen then false
  else if hasOpen && hasClose then
    bracketedHostOk (((l.dropWhile (fun c => c ≠ '[')).drop 1).takeWhile (fun c => c ≠ ']'))
  else true

/-- Scheme, netloc and post-netloc remainder of `urllib.parse.urlsplit`,
after the unsafe-byte removal; `Except.error ()` models the `ValueError`
raised on an invalid bracketed authority, which no caller in the relay
catches. -/
def urlsplitE (url : String) : Except Unit (String × String × String) :=
  let cleaned := removeUnsafeUrlChars url
  let (scheme, rest) := splitScheme cleaned
  match rest.data with
  | '/' :: '/' :: tail =>
    let netloc : String := ⟨tail.takeWhile (fun c => c ≠ '/' && c ≠ '?' && c ≠ '#')⟩
    let remainder : String := ⟨tail.dropWhile (fun c => c ≠ '/' && c ≠ '?' && c ≠ '#')⟩
    if netlocOk netloc then .ok (scheme, netloc, remainder) else .error ()
  | _ => .ok (scheme, "", rest)

/-- Source: `canonical_origin` — strip, parse, require scheme `http`/`https`
and a nonempty netloc, return `scheme://netloc` lowercased.  The function
does not catch the parse `ValueError`, so an `Except.error` propagates to
the caller exactly as the Python exception does. -/
def canonical_origin (value : Option String) : Except Unit (Option String) :=
  match value with
  | none => .ok none
  | some v =>
    let stripped := pyStrip v
    if stripped = "" then .ok none
    else
      match urlsplitE stripped with
      | .error () => .error ()
      | .ok (scheme, netloc, _) =>
        if scheme = "http" || scheme = "https" then
          if netloc = "" then .ok none
          else .ok (some (scheme ++ "://" ++ pyLower netloc))
        else .ok none

/-- Source: `is_post_origin_allowed` — absent `Origin` is allowed; with a
configured CORS origin canonical equality with it is required; otherwise
canonical equality with `http://` + the `Host` header.  A `ValueError`
from any of the canonicalizations propagates. -/
def is_post_origin_allowed (origin host cors_origin : Option String) : Except Unit Bool :=
  match origin with
  | none => .ok true
  | some o =>
    match canonical_origin (some o) with
    | .error () => .error ()
    | .ok none => .ok false
    | .ok (some canonicalRequestOrigin) =>
      match cors_origin with
      | some co =>
        match canonical_origin (some co) with
        | .error () => .error ()
        | .ok none => .ok false
        | .ok (some canonicalAllowedOrigin) =>
          .ok (decide (canonicalRequestOrigin = canonicalAllowedOrigin))
      | none =>
        match host with
        | none => .ok false
        | some h =>
          match canonical_origin (some ("http://" ++ pyStrip h)) with
          | .error () => .error ()
          | .ok none => .ok false
          | .ok (some canonicalHostOrigin) =>
            .ok (decide (canonicalRequestOrigin = canonicalHostOrigin))

/-- Source: `is_json_content_type` — MIME portion before `;`, stripped and
lowercased, must equal `application/json`. -/
def is_json_content_type (content_type : Option String) : Bool :=
  match content_type with
  | none => false
  | some ct => decide (pyLower (pyStrip (pyBeforeChar ct ';')) = "application/json")

/-- Source: `is_cors_origin_allowed` — requires both a configured CORS
origin and a request origin, canonically equal; a canonicalization
`ValueError` propagates (request origin first, as in the source). -/
def is_cors_origin_allowed (origin cors_origin : Option String) : Except Unit Bool :=
  match cors_origin, origin with
  | none, _ => .ok false
  | _, none => .ok false
  | some co, some o =>
    match canonical_origin (some o) with
    | .error () => .error ()
    | .ok a =>
      match canonical_origin (some co) with
      | .error () => .error ()
      | .ok b =>
        match a, b with
        | some a1, some b1 => .ok (decide (a1 = b1))
        | _, _ => .ok false

/-- Source: `is_loopback_host` — membership of the stripped, lowercased
host in the loopback set. -/
def is_loopback_host (host : Option String) : Bool :=
  match host with
  | none => false
  | some h =>
    decide (pyLower (pyStrip h) ∈ (["127.0.0.1", "localhost", "::1", "[::1]"] : List String))

/-- Message of the `RuntimeError` raised by `validate_bind_security`. -/
def bindSecurityError : String :=
  "ZCLAW_WEB_API_KEY is required when binding the relay to a non-loopback host."

/-- Source: `validate_bind_security` — returns for loopback hosts, raises
when a non-loopback host is bound without an API key. -/
def validate_bind_security (host : String) (api_key : Option String) : Except String Unit :=
  if is_loopback_host (some host) then .ok ()
  else
    match api_key with
    | none => .error bindSecurityError
    | some _ => .ok ()

/-- Source: `is_request_authorized` — no configured key authorizes all,
otherwise exact match. -/
def is_request_authorized (provided_key expected_key : Option String) : Bool :=
  match expected_key with
  | none => true
  | some e =>
    match provided_key with
    | none => false
    | some p => decide (p = e)

/-- ESP-IDF leveled log-line markers (`ESP_LOG_PREFIXES`). -/
def espLogMarkers : List String := ["I (", "W (", "E (", "D (", "V ("]

/-- Boot-banner markers (`BOOT_LOG_PREFIXES`). -/
def bootLogMarkers : List String := ["ets ", "rst:", "boot:", "SPIWP:", "mode:", "load:", "entry "]

/-- Source: `is_probable_esp_log_line` — a nonblank line whose stripped
form starts with a firmware log or boot marker. -/
def is_probable_esp_log_line (line : String) : Bool :=
  let stripped := pyStrip line
  if stripped = "" then false
  else espLogMarkers.any (pyStartsWith stripped) || bootLogMarkers.any (pyStartsWith stripped)

/- ### Voice sideband protocol (`web_relay.py` lines 35-38, 237-243, 621-715) -/

/-- Marker `VOICE_STT_REQ_PREFIX` carried by device-to-host sideband frames. -/
def voiceSttReqMarker : String := "__zclaw_voice_stt_req__:"

/-- Marker `VOICE_STT_RESP_PREFIX` carried by host-to-device sideband replies. -/
def voiceSttRespMarker : String := "__zclaw_voice_stt_resp__:"

/-- Source constant `VOICE_STT_MAX_PCM_BYTES = 512 * 1024`. -/
def VOICE_STT_MAX_PCM_BYTES : Nat := 512 * 1024

/-- Source constant `VOICE_STT_TRANSCRIPT_MAX_LEN = 300`. -/
def VOICE_STT_TRANSCRIPT_MAX_LEN : Nat := 300

/-- Source constant `MAX_CHAT_MESSAGE_LEN = 4096`. -/
def MAX_CHAT_MESSAGE_LEN : Nat := 4096

/-- Character map of `value.replace("\r", " ").replace("\n", " ")`. -/
def crlfToSpace (c : Char) : Char :=
  if c = '\r' || c = '\n' then ' ' else c

/-- Source: `sanitize_voice_payload` — CR/LF become spaces, strip, and a
stripped hard truncation to 300 characters. -/
def sanitize_voice_payload (value : String) : String :=
  let text := pyStrip ⟨value.data.map crlfToSpace⟩
  if text = "" then ""
  else if text.length > VOICE_STT_TRANSCRIPT_MAX_LEN then
    pyStrip ⟨text.data.take VOICE_STT_TRANSCRIPT_MAX_LEN⟩
  else text

/-- Value of a standard base64 alphabet character. -/
def b64CharVal (c : Char) : Option Nat :=
  if 'A' ≤ c ∧ c ≤ 'Z' then some (c.toNat - 65)
  else if 'a' ≤ c ∧ c ≤ 'z' then some (c.toNat - 71)
  else if '0' ≤ c ∧ c ≤ '9' then some (c.toNat + 4)
  else if c = '+' then some 62
  else if c = '/' then some 63
  else none

/-- Quad-wise base64 decoding: four characters yield three bytes, with `=`
padding allowed only at the very end (one or two characters). -/
def b64Quads : List Char → Option (List Nat)
  | [] => some []
  | a :: b :: c :: d :: rest =>
    match b64CharVal a, b64CharVal b with
    | some va, some vb =>
      if c = '=' then
        if d = '=' ∧ rest = [] then some [va * 4 + vb / 16] else none
      else
        match b64CharVal c with
        | some vc =>
          if d = '=' then
            if rest = [] then some [va * 4 + vb / 16, (vb % 16) * 16 + vc / 4] else none
          else
            match b64CharVal d, b64Quads rest with
            | some vd, some tail =>
              some ((va * 4 + vb / 16) :: ((vb % 16) * 16 + vc / 4) :: ((vc % 4) * 64 + vd) :: tail)
            | _, _ => none
        | none => none
    | _, _ => none
  | _ => none

/-- Python `base64.b64decode(s, validate=True)`: the input must be a run of
alphabet characters followed by at most two `=`, of length a multiple of
four; `none` models the `binascii.Error`/`ValueError` the relay catches. -/
def b64decodePy (s : String) : Option (List Nat) :=
  b64Quads s.data

/-- Voice capture state of the serial bridge: the `_voice_collecting`
flag, `_voice_sample_rate_hz` and the `_voice_pcm` buffer. -/
structure VoiceState where
  collecting : Bool
  sampleRateHz : Int
  pcm : List Nat
deriving DecidableEq, Repr

/-- Source: `_reset_voice_capture` — also the constructor-time state. -/
def initVoiceState : VoiceState :=
  { collecting := false, sampleRateHz := 16000, pcm := [] }

/-- Observable effects of processing one sideband frame: lines written back
over serial and invocations of the pluggable transcriber. -/
structure VoiceEffects where
  writes : List String
  sttCalls : List (List Nat × Int)
deriving DecidableEq, Repr

/-- Transcriber capability `(pcm, sample rate) -> text`; an `error` result
models an exception escaping the callable. -/
def VoiceTranscriber : Type := List Nat → Int → Except String String

/-- Source: `_write_voice_response` — status tag plus sanitized payload
after the response marker. -/
def writeVoiceResponse (ok : Bool) (payload : String) : String :=
  voiceSttRespMarker ++ (if ok then "ok" else "err") ++ ":" ++ sanitize_voice_payload payload

/-- Source: `_transcribe_voice_request` — raises when no transcriber is
configured, otherwise calls it; the invocation list records actual calls. -/
def transcribeVoiceRequest (t : Option VoiceTranscriber) (pcm : List Nat) (rate : Int) :
    Except String String × List (List Nat × Int) :=
  match t with
  | none =>
    (.error "Voice STT is disabled: set ZCLAW_STT_API_KEY or OPENAI_API_KEY in relay env.", [])
  | some f => (f pcm rate, [(pcm, rate)])

/-- Source: `_handle_voice_sideband_line` — returns `none` when the line
does not carry the request marker (the Python method returns `False`),
otherwise the successor state and observable effects. -/
def handleVoiceSidebandLine (t : Option VoiceTranscriber) (st : VoiceState) (line : String) :
    Option (VoiceState × VoiceEffects) :=
  if pyStartsWith line voiceSttReqMarker then
    let commandText := pyDrop line voiceSttReqMarker.length
    let parts := pyPartitionColon commandText
    let command := pyLower (pyStrip parts.1)
    let rest := parts.2
    if command = "begin" then
      let st0 := initVoiceState
      let restStripped := pyStrip rest
      let sampleRate : Option Int :=
        if restStripped = "" then some 16000 else pyParseInt restStripped
      match sampleRate with
      | none => some (st0, ⟨[writeVoiceResponse false "invalid sample rate"], []⟩)
      | some r =>
        if r ≤ 0 then some (st0, ⟨[writeVoiceResponse false "invalid sample rate"], []⟩)
        else some ({ st0 with collecting := true, sampleRateHz := r }, ⟨[], []⟩)
    else if command = "chunk" then
      if st.collecting then
        let chunkB64 := pyStrip rest
        if chunkB64 = "" then some (st, ⟨[], []⟩)
        else
          match b64decodePy chunkB64 with
          | none => some (initVoiceState, ⟨[writeVoiceResponse false "invalid base64 chunk"], []⟩)
          | some chunk =>
            let extended := { st with pcm := st.pcm ++ chunk }
            if extended.pcm.length > VOICE_STT_MAX_PCM_BYTES then
              some (initVoiceState, ⟨[writeVoiceResponse false "audio payload too large"], []⟩)
            else some (extended, ⟨[], []⟩)
      else some (st, ⟨[writeVoiceResponse false "chunk without begin"], []⟩)
    else if command = "end" then
      if st.collecting then
        let pcmBytes := st.pcm
        let rate := st.sampleRateHz
        let st0 := initVoiceState
        if pcmBytes = [] then some (st0, ⟨[writeVoiceResponse false "empty audio payload"], []⟩)
        else
          let attempt := transcribeVoiceRequest t pcmBytes rate
          match attempt.1 with
          | .error e =>
            some (st0, ⟨[writeVoiceResponse false ("stt failed: " ++ e)], attempt.2⟩)
          | .ok transcriptRaw =>
            let transcript := sanitize_voice_payload transcriptRaw
            if transcript = "" then
              some (st0, ⟨[writeVoiceResponse false "empty transcript"], attempt.2⟩)
            else some (st0, ⟨[writeVoiceResponse true transcript], attempt.2⟩)
      else some (st, ⟨[writeVoiceResponse false "end without begin"], []⟩)
    else if command = "cancel" then
      some (initVoiceState, ⟨[], []⟩)
    else
      some (st,
        ⟨[writeVoiceResponse false
            ("unknown command: " ++ (if command = "" then "empty" else command))], []⟩)
  else none

/-- Sequential processing of serial lines by the reader loop's sideband
dispatch; lines without the request marker leave the capture state alone. -/
def runVoiceFrames (t : Option VoiceTranscriber) (st : VoiceState) :
    List String → VoiceState × VoiceEffects
  | [] => (st, ⟨[], []⟩)
  | line :: rest =>
    let step :=
      match handleVoiceSidebandLine t st line with
      | some r => r
      | none => (st, ⟨[], []⟩)
    let tail := runVoiceFrames t step.1 rest
    (tail.1, ⟨step.2.writes ++ tail.2.writes, step.2.sttCalls ++ tail.2.sttCalls⟩)

/- ### Bridge lifecycle (`web_relay.py` lines 450-462) -/

/-- Lifecycle state touched by `SerialAgentBridge.close`: the stop flag,
the reader-thread slot, and the serial handle. -/
structure CloseSt where
  stopReaderSet : Bool
  readerThread : Option Unit
  serialHandle : Option Unit
deriving DecidableEq, Repr

/-- State of a bridge on which `close()` has completed. -/
def closedBridgeSt : CloseSt :=
  { stopReaderSet := true, readerThread := none, serialHandle := none }

/-- Source: `SerialAgentBridge.close` — set the stop flag, join and drop
the reader thread, return early when no serial handle is held, otherwise
close it (exceptions swallowed) and drop it.  `serialCloseFails` abstracts
whether the underlying `serial.close()` raises. -/
def closeRun (serialCloseFails : Bool) (st : CloseSt) : Except String CloseSt :=
  let st1 : CloseSt := { st with stopReaderSet := true, readerThread := none }
  match st1.serialHandle with
  | none => .ok st1
  | some _ =>
    match (if serialCloseFails then Except.error "close failed" else Except.ok ()) with
    | .ok _ => .ok { st1 with serialHandle := none }
    | .error _ => .ok { st1 with serialHandle := none }

/- ### Request/response correlation (`web_relay.py` lines 464-569)

Time is modelled in integer milliseconds starting at 0 when `ask` enters
its loop; `R` is `response_timeout_s` and `I` is `idle_timeout_s` in the
same unit, and the queue-poll quantum `min(0.1, deadline - now)` becomes
`min 100 (R - now)`.  The asynchronous reader thread is abstracted by the
list of observations the loop makes: a queued line (delivered without
waiting), an empty poll (waits the poll quantum), or a recorded reader
error seen at the top of an iteration.  An exhausted event list behaves as
a serial device that stays silent until the absolute deadline. -/

/-- Error taxonomy of `SerialAgentBridge.ask` (Python exception classes). -/
inductive AskErr where
  | validation (msg : String)
  | timeout (msg : String)
  | transport (msg : String)
  | readerFail (msg : String)
deriving DecidableEq, Repr

instance instDecidableEqExcept {ε : Type} {α : Type} [DecidableEq ε] [DecidableEq α] :
    DecidableEq (Except ε α) := fun a b =>
  match a, b with
  | .error e, .error f =>
    if h : e = f then isTrue (by rw [h]) else isFalse (fun hc => by injection hc; contradiction)
  | .ok x, .ok y =>
    if h : x = y then isTrue (by rw [h]) else isFalse (fun hc => by injection hc; contradiction)
  | .error _, .ok _ => isFalse (fun hc => Except.noConfusion hc)
  | .ok _, .error _ => isFalse (fun hc => Except.noConfusion hc)

/-- One observation of the `_ask_via_reader` loop. -/
inductive AskEvent where
  | lineEv (s : String)
  | emptyEv
  | errEv (msg : String)
deriving DecidableEq, Repr

/-- Outcome of one loop iteration: continue with updated accumulator,
break out of the loop, or raise. -/
inductive AskStepOut where
  | cont (sawEcho : Bool) (lines : List String) (now idleDeadline : Nat)
  | breakOut (lines : List String)
  | errOut (e : AskErr)
deriving DecidableEq, Repr

/-- Loop body of `_ask_via_reader` (lines 500-529): reader-error check,
queue poll, blank-line collapsing, echo consumption, log and sideband
filtering, response accumulation with idle-deadline push. -/
def askStep (prompt : String) (R I : Nat) (ev : AskEvent) (sawEcho : Bool)
    (lines : List String) (now idleDeadline : Nat) : AskStepOut :=
  match ev with
  | .errEv m => .errOut (.readerFail m)
  | .emptyEv =>
    if lines ≠ [] ∧ now ≥ idleDeadline then .breakOut lines
    else .cont sawEcho lines (now + min 100 (R - now)) idleDeadline
  | .lineEv l =>
    if l = "" then
      if lines ≠ [] ∧ lines.getLast? ≠ some "" then
        .cont sawEcho (lines ++ [""]) now idleDeadline
      else .cont sawEcho lines now idleDeadline
    else if sawEcho = false then
      .cont (decide (pyStrip l = prompt) || sawEcho) lines now idleDeadline
    else if is_probable_esp_log_line l then .cont sawEcho lines now idleDeadline
    else if pyStartsWith l voiceSttReqMarker || pyStartsWith l voiceSttRespMarker then
      .cont sawEcho lines now idleDeadline
    else .cont sawEcho (lines ++ [l]) now (now + I)

/-- Function-exit check shared by the loop's break and deadline exits
(lines 534-538): no accumulated line raises `TimeoutError`. -/
def askExit (lines : List String) : Except AskErr (List String) :=
  if lines = [] then .error (.timeout "No agent response received") else .ok lines

/-- The `while time.monotonic() < deadline` loop of `_ask_via_reader`. -/
def askLoop (prompt : String) (R I : Nat) :
    List AskEvent → Bool → List String → Nat → Nat → Except AskErr (List String)
  | [], _, lines, _, _ => askExit lines
  | ev :: rest, sawEcho, lines, now, idleDeadline =>
    if now < R then
      match askStep prompt R I ev sawEcho lines now idleDeadline with
      | .cont sawEcho1 lines1 now1 idle1 => askLoop prompt R I rest sawEcho1 lines1 now1 idle1
      | .breakOut lines1 => askExit lines1
      | .errOut e => .error e
    else askExit lines

/-- Correlation state shared with the reader loop: the `_active_prompt`
slot and the contents of `_response_queue`. -/
structure CorrState where
  activePrompt : Option String
  queued : List String
deriving DecidableEq, Repr

/-- Source: `_ask_via_reader` — under the single-flight ask lock: drain
the queue, publish the active prompt, write the prompt (a write failure
raises a transport error), run the collection loop; the `finally` block
clears the active-prompt slot and drains the queue on every exit path
before the lock is released.  Returns the loop outcome together with the
correlation state at the instant the lock is released. -/
def askViaReaderRun (sentPrompt : String) (R I : Nat) (writeErr : Option String)
    (events : List AskEvent) (entry : CorrState) :
    Except AskErr (List String) × CorrState :=
  let afterClear : CorrState := { entry with queued := [] }
  let published : CorrState := { afterClear with activePrompt := some sentPrompt }
  let body : Except AskErr (List String) :=
    match writeErr with
    | some m => .error (.transport m)
    | none => askLoop sentPrompt R I events false [] 0 I
  (body, { published with activePrompt := none, queued := [] })

/-- Source: `SerialAgentBridge.ask` — validate the stripped prompt, run
the reader-loop exchange, then join the collected lines with newlines and
strip; an empty joined reply raises `TimeoutError`.  (The Python `except`
clause re-wraps serial-library errors in a `RuntimeError` with a port
hint, which does not change the error category modelled here.) -/
def askRun (prompt : String) (R I : Nat) (writeErr : Option String)
    (events : List AskEvent) : Except AskErr String :=
  let message := pyStrip prompt
  if message = "" then .error (.validation "Message is empty")
  else
    match (askViaReaderRun message R I writeErr events ⟨none, []⟩).1 with
    | .error e => .error e
    | .ok responseLines =>
      let response := pyStrip (String.intercalate "\n" responseLines)
      if response = "" then .error (.timeout "No response text collected")
      else .ok response

/- ### HTTP front door (`web_relay.py` lines 873-970) -/

/-- JSON values as far as `do_POST` inspects them: the `message` field is
either a string or something else. -/
inductive JVal where
  | str (s : String)
  | other
deriving DecidableEq, Repr

/-- Result of decoding and `json.loads`-ing the request body: failure, a
non-object document, or an object with its fields. -/
inductive JBody where
  | notDict
  | dict (fields : List (String × JVal))
deriving DecidableEq, Repr

/-- An incoming POST request: target path, the headers `do_POST` reads,
and the body abstracted by its decode/parse result (`none` models a
`UnicodeDecodeError`/`JSONDecodeError`). -/
structure HttpRequest where
  path : String
  origin : Option String
  host : Option String
  contentType : Option String
  zclawKey : Option String
  contentLength : Option String
  bodyJson : Option JBody
deriving Repr

/-- Configuration slice of `AppState` that `do_POST` consults. -/
structure AppCfg where
  apiKey : Option String
  corsOrigin : Option String
  voiceSttEnabled : Bool
deriving Repr

/-- Outcome of a `do_POST` call: HTTP status, the `error`/`reply` field of
the JSON response, and the prompt passed to `bridge.ask` (`none` when the
bridge was never invoked). -/
structure PostOutcome where
  status : Nat
  body : String
  askedWith : Option String
deriving DecidableEq, Repr

/-- Bridge errors as classified by `do_POST`'s `except` clauses. -/
inductive HttpAskErr where
  | timeoutErr (msg : String)
  | runtimeErr (msg : String)
  | otherErr (msg : String)
deriving DecidableEq, Repr

/-- Path component of `urllib.parse.urlparse(self.path)`: scheme and
authority are split off first, then fragment and query; the bracket
`ValueError` propagates out of `do_POST`. -/
def parsePathE (target : String) : Except Unit String :=
  match urlsplitE target with
  | .error () => .error ()
  | .ok (_, _, remainder) => .ok (pyBeforeChar (pyBeforeChar remainder '#') '?')

/-- Python `dict.get("message")` on the parsed body object. -/
def jGet (fields : List (String × JVal)) (key : String) : Option JVal :=
  (fields.find? (fun kv => kv.1 == key)).map (fun kv => kv.2)

/-- Source: `RelayHandler._read_json` — Content-Length presence, integer
parse, size bounds, then the decoded JSON object. -/
def readJson (r : HttpRequest) : Except (Nat × String) (List (String × JVal)) :=
  match r.contentLength with
  | none => .error (400, "Content-Length required")
  | some lengthHeader =>
    match pyParseInt lengthHeader with
    | none => .error (400, "Invalid Content-Length")
    | some n =>
      if n ≤ 0 ∨ n > 1024 * 1024 then .error (400, "Invalid body size")
      else
        match r.bodyJson with
        | none => .error (400, "Invalid JSON body")
        | some .notDict => .error (400, "JSON body must be an object")
        | some (.dict fields) => .ok fields

/-- Source: `RelayHandler.do_POST` — path dispatch (any path other than
`/api/chat` is answered 404), origin gate, content-type gate, API-key
gate, body validation, then exactly one `bridge.ask` call whose outcome is
mapped to 200/504/503/502.  `Except.error ()` models an exception
escaping the handler (the `urlparse` `ValueError` in the path parse or
the origin gate), in which case no JSON response is sent at all. -/
def doPOST (cfg : AppCfg) (ask : String → Except HttpAskErr String) (r : HttpRequest) :
    Except Unit PostOutcome :=
  match parsePathE r.path with
  | .error () => .error ()
  | .ok p =>
    if p ≠ "/api/chat" then .ok ⟨404, "Not found", none⟩
    else
      match is_post_origin_allowed r.origin r.host cfg.corsOrigin with
      | .error () => .error ()
      | .ok false => .ok ⟨403, "Origin not allowed", none⟩
      | .ok true =>
        if is_json_content_type r.contentType = false then
          .ok ⟨400, "Content-Type must be application/json", none⟩
        else if is_request_authorized (normalize_api_key r.zclawKey) cfg.apiKey = false then
          .ok ⟨401, "Unauthorized", none⟩
        else
          match readJson r with
          | .error e => .ok ⟨e.1, e.2, none⟩
          | .ok fields =>
            match jGet fields "message" with
            | some (.str rawMessage) =>
              let message := pyStrip rawMessage
              if message = "" then .ok ⟨400, "message is empty", none⟩
              else if message.length > MAX_CHAT_MESSAGE_LEN then
                .ok ⟨400, "message exceeds 4096 characters", none⟩
              else
                match ask message with
                | .ok reply => .ok ⟨200, reply, some message⟩
                | .error (.timeoutErr m) => .ok ⟨504, m, some message⟩
                | .error (.runtimeErr m) => .ok ⟨503, m, some message⟩
                | .error (.otherErr m) => .ok ⟨502, "Bridge error: " ++ m, some message⟩
            | _ => .ok ⟨400, "message must be a string", none⟩

/- ### Generic string lemmas used by the claim proofs -/

theorem strExt {a b : String} (h : a.data = b.data) : a = b := by
  cases a with
  | mk x =>
    cases b with
    | mk y => cases h; rfl

theorem strAppend_assoc (a b c : String) : a ++ b ++ c = a ++ (b ++ c) :=
  strExt (by simp [String.data_append])

theorem pyStartsWith_append (p s : String) : pyStartsWith (p ++ s) p = true := by
  unfold pyStartsWith
  rw [String.data_append, List.take_left, decide_eq_true_eq]

theorem pyDrop_append (p s : String) : pyDrop (p ++ s) p.length = s := by
  cases p with
  | mk lp =>
    cases s with
    | mk ls =>
      show String.mk ((lp ++ ls).drop lp.length) = String.mk ls
      rw [List.drop_left]

theorem dropWhile_head_not {α : Type} (p : α → Bool) :
    ∀ (l : List α) (a : α) (t : List α), l.dropWhile p = a :: t → p a = false := by
  intro l
  induction l with
  | nil => intro a t h; simp [List.dropWhile] at h
  | cons b l ih =>
    intro a t h
    cases hpb : p b with
    | true => exact ih a t (by simpa [List.dropWhile_cons, hpb] using h)
    | false =>
      simp [List.dropWhile_cons, hpb] at h
      rw [← h.1]
      exact hpb

theorem dropWhile_dropWhile {α : Type} (p : α → Bool) (l : List α) :
    (l.dropWhile p).dropWhile p = l.dropWhile p := by
  cases h : l.dropWhile p with
  | nil => simp
  | cons a t =>
    have ha : p a = false := dropWhile_head_not p l a t h
    simp [List.dropWhile_cons, ha]

theorem pyStripList_dropWhile (l : List Char) :
    (pyStripList l).dropWhile pyIsSpace = pyStripList l := by
  cases hBc : pyStripList l with
  | nil => simp
  | cons a t =>
    have hsuffix : (pyStripList l).reverse <:+ (l.dropWhile pyIsSpace).reverse := by
      unfold pyStripList
      rw [List.reverse_reverse]
      exact List.dropWhile_suffix pyIsSpace
    have hprefix : pyStripList l <+: l.dropWhile pyIsSpace := by
      have h2 := List.reverse_prefix.mpr hsuffix
      simpa using h2
    obtain ⟨u, hu⟩ := hprefix
    rw [hBc] at hu
    have hA : l.dropWhile pyIsSpace = a :: (t ++ u) := by
      rw [← hu]; simp
    have ha : pyIsSpace a = false := dropWhile_head_not pyIsSpace l a (t ++ u) hA
    rw [List.dropWhile_cons, ha]
    simp

theorem pyStripList_idem (l : List Char) : pyStripList (pyStripList l) = pyStripList l := by
  have h1 : pyStripList (pyStripList l)
      = ((pyStripList l).reverse.dropWhile pyIsSpace).reverse := by
    show (((pyStripList l).dropWhile pyIsSpace).reverse.dropWhile pyIsSpace).reverse = _
    rw [pyStripList_dropWhile]
  have h2 : (pyStripList l).reverse = (l.dropWhile pyIsSpace).reverse.dropWhile pyIsSpace := by
    unfold pyStripList
    rw [List.reverse_reverse]
  rw [h1, h2, dropWhile_dropWhile, ← h2, List.reverse_reverse]

theorem pyStrip_idem (s : String) : pyStrip (pyStrip s) = pyStrip s := by
  cases s with
  | mk l =>
    show String.mk (pyStripList (pyStripList l)) = String.mk (pyStripList l)
    rw [pyStripList_idem]

theorem mem_pyStripList {a : Char} {l : List Char} (h : a ∈ pyStripList l) : a ∈ l := by
  unfold pyStripList at h
  rw [List.mem_reverse] at h
  have h2 := ((List.dropWhile_sublist pyIsSpace).subset h)
  rw [List.mem_reverse] at h2
  exact (List.dropWhile_sublist pyIsSpace).subset h2

theorem length_pyStripList_le (l : List Char) : (pyStripList l).length ≤ l.length := by
  unfold pyStripList
  calc ((l.dropWhile pyIsSpace).reverse.dropWhile pyIsSpace).reverse.length
      = ((l.dropWhile pyIsSpace).reverse.dropWhile pyIsSpace).length := List.length_reverse _
    _ ≤ (l.dropWhile pyIsSpace).reverse.length := (List.dropWhile_sublist _).length_le
    _ = (l.dropWhile pyIsSpace).length := List.length_reverse _
    _ ≤ l.length := (List.dropWhile_sublist _).length_le

theorem dropWhile_append_all_true {α : Type} (p : α → Bool) (l₁ l₂ : List α)
    (h : ∀ c ∈ l₁, p c = true) : (l₁ ++ l₂).dropWhile p = l₂.dropWhile p := by
  induction l₁ with
  | nil => simp
  | cons a t ih =>
    have ha : p a = true := h a (by simp)
    simp only [List.cons_append, List.dropWhile_cons, ha, if_pos]
    exact ih (fun c hc => h c (by simp [hc]))

theorem takeWhile_append_all_true {α : Type} (p : α → Bool) (l₁ l₂ : List α)
    (h : ∀ c ∈ l₁, p c = true) : (l₁ ++ l₂).takeWhile p = l₁ ++ l₂.takeWhile p := by
  induction l₁ with
  | nil => simp
  | cons a t ih =>
    have ha : p a = true := h a (by simp)
    simp only [List.cons_append, List.takeWhile_cons, ha, if_pos]
    rw [ih (fun c hc => h c (by simp [hc]))]

theorem pyPartitionColon_chunk (s : String) :
    pyPartitionColon ("chunk:" ++ s) = ("chunk", s) := by
  cases s with
  | mk ls =>
    have hd : (("chunk:" : String) ++ String.mk ls).data
        = ['c', 'h', 'u', 'n', 'k'] ++ ':' :: ls := rfl
    unfold pyPartitionColon
    rw [hd, dropWhile_append_all_true _ _ _ (by decide),
      takeWhile_append_all_true _ _ _ (by decide)]
    simp [List.dropWhile_cons, List.takeWhile_cons]

theorem strMkData (s : String) : String.mk s.data = s := rfl

theorem crlfToSpace_fix (x : Char) : crlfToSpace (crlfToSpace x) = crlfToSpace x := by
  by_cases h1 : x = '\r'
  · subst h1; rfl
  · by_cases h2 : x = '\n'
    · subst h2; rfl
    · have hfix : crlfToSpace x = x := by
        unfold crlfToSpace
        rw [if_neg (by simp [h1, h2])]
      rw [hfix, hfix]

theorem crlfToSpace_of_mem_map {c : Char} {l : List Char}
    (h : c ∈ l.map crlfToSpace) : crlfToSpace c = c := by
  obtain ⟨x, -, hx⟩ := List.mem_map.mp h
  rw [← hx]
  exact crlfToSpace_fix x

theorem map_crlfToSpace_fix : ∀ (l : List Char), (∀ c ∈ l, crlfToSpace c = c) →
    l.map crlfToSpace = l := by
  intro l h
  induction l with
  | nil => rfl
  | cons a t ih =>
    simp only [List.map_cons, h a (by simp)]
    rw [ih (fun c hc => h c (by simp [hc]))]

theorem sanitize_chars (v : String) :
    ∀ c ∈ (sanitize_voice_payload v).data, crlfToSpace c = c := by
  have hbase : ∀ c ∈ (pyStrip ⟨v.data.map crlfToSpace⟩).data, crlfToSpace c = c := by
    intro c hc
    exact crlfToSpace_of_mem_map (mem_pyStripList hc)
  intro c hc
  simp only [sanitize_voice_payload] at hc
  split at hc
  · simp at hc
  · split at hc
    · exact hbase _ ((List.take_sublist _ _).subset (mem_pyStripList hc))
    · exact hbase _ hc

theorem sanitize_stripped (v : String) :
    pyStrip (sanitize_voice_payload v) = sanitize_voice_payload v := by
  simp only [sanitize_voice_payload]
  split
  · rfl
  · split
    · exact pyStrip_idem _
    · exact pyStrip_idem _

theorem sanitize_len (v : String) :
    (sanitize_voice_payload v).length ≤ VOICE_STT_TRANSCRIPT_MAX_LEN := by
  simp only [sanitize_voice_payload]
  split
  · simp [String.length, VOICE_STT_TRANSCRIPT_MAX_LEN]
  · split
    · calc (pyStrip ⟨(pyStrip ⟨v.data.map crlfToSpace⟩).data.take
            VOICE_STT_TRANSCRIPT_MAX_LEN⟩).length
          ≤ ((pyStrip ⟨v.data.map crlfToSpace⟩).data.take
              VOICE_STT_TRANSCRIPT_MAX_LEN).length := length_pyStripList_le _
        _ ≤ VOICE_STT_TRANSCRIPT_MAX_LEN := by
            rw [List.length_take]; exact Nat.min_le_left _ _
    · omega

theorem sanitize_voice_payload_idem (v : String) :
    sanitize_voice_payload (sanitize_voice_payload v) = sanitize_voice_payload v := by
  have hmap : (sanitize_voice_payload v).data.map crlfToSpace
      = (sanitize_voice_payload v).data := map_crlfToSpace_fix _ (sanitize_chars v)
  have hstrip : pyStrip (sanitize_voice_payload v) = sanitize_voice_payload v :=
    sanitize_stripped v
  have hlen : (sanitize_voice_payload v).length ≤ VOICE_STT_TRANSCRIPT_MAX_LEN :=
    sanitize_len v
  conv_lhs => rw [sanitize_voice_payload]
  simp only [hmap, strMkData, hstrip]
  by_cases hw : sanitize_voice_payload v = ""
  · simp [hw]
  · rw [if_neg hw, if_neg (by omega)]

theorem writeVoiceResponse_ok (p : String) :
    writeVoiceResponse true p = voiceSttRespMarker ++ "ok:" ++ sanitize_voice_payload p := by
  apply strExt
  simp only [writeVoiceResponse, if_pos, String.data_append, List.append_assoc]
  rfl

/-- Evaluation of a `chunk` frame while collecting, for a payload that
decodes: append the bytes, then either overflow-reset or keep collecting. -/
theorem handle_chunk_frame (t : Option VoiceTranscriber) (st : VoiceState) (s : String)
    (bytes : List Nat) (hcol : st.collecting = true)
    (hne : pyStrip s ≠ "") (hdec : b64decodePy (pyStrip s) = some bytes) :
    handleVoiceSidebandLine t st (voiceSttReqMarker ++ ("chunk:" ++ s))
      = if (st.pcm ++ bytes).length > VOICE_STT_MAX_PCM_BYTES then
          some (initVoiceState, ⟨[writeVoiceResponse false "audio payload too large"], []⟩)
        else some ({ st with pcm := st.pcm ++ bytes }, ⟨[], []⟩) := by
  have hsw := pyStartsWith_append voiceSttReqMarker ("chunk:" ++ s)
  have hdr := pyDrop_append voiceSttReqMarker ("chunk:" ++ s)
  have hpart := pyPartitionColon_chunk s
  have hcmd : pyLower (pyStrip "chunk") = "chunk" := rfl
  simp only [handleVoiceSidebandLine, hsw, if_true, hdr, hpart, hcmd, hcol, hdec, if_neg hne]
  rw [if_neg (show ("chunk" : String) ≠ "begin" by decide)]

/-- Evaluation of a `chunk` frame while not collecting: the state is kept
and `err:chunk without begin` is written. -/
theorem handle_chunk_frame_idle (t : Option VoiceTranscriber) (st : VoiceState) (s : String)
    (hcol : st.collecting = false) :
    handleVoiceSidebandLine t st (voiceSttReqMarker ++ ("chunk:" ++ s))
      = some (st, ⟨[writeVoiceResponse false "chunk without begin"], []⟩) := by
  have hsw := pyStartsWith_append voiceSttReqMarker ("chunk:" ++ s)
  have hdr := pyDrop_append voiceSttReqMarker ("chunk:" ++ s)
  have hpart := pyPartitionColon_chunk s
  have hcmd : pyLower (pyStrip "chunk") = "chunk" := rfl
  simp only [handleVoiceSidebandLine, hsw, if_true, hdr, hpart, hcmd, hcol]
  rw [if_neg (show ¬(false = true) by simp),
    if_neg (show ("chunk" : String) ≠ "begin" by decide)]

/- ### Claim theorems -/

/-- Invariant of the voice-capture state: when not collecting the buffer
is empty and the sample rate is the 16000 Hz default, and the buffer
never exceeds `VOICE_STT_MAX_PCM_BYTES`. -/
def VoiceInv (st : VoiceState) : Prop :=
  (st.collecting = false → st.pcm = [] ∧ st.sampleRateHz = 16000)
    ∧ st.pcm.length ≤ VOICE_STT_MAX_PCM_BYTES

/-- C10: the invariant holds initially and is preserved by processing any
sideband frame — after any handled frame, a non-collecting state has an
empty PCM buffer and the default sample rate, and a frame that would
leave the buffer above the 512 KiB maximum resets capture immediately, so
at frame boundaries a buffer exceeding the maximum is never retained. -/
theorem C10_voice_state_invariant :
    VoiceInv initVoiceState ∧
      ∀ (t : Option VoiceTranscriber) (st : VoiceState) (line : String)
        (result : VoiceState × VoiceEffects),
        handleVoiceSidebandLine t st line = some result →
        VoiceInv st → VoiceInv result.1 := by
  have hinit : VoiceInv initVoiceState := by
    refine ⟨fun _ => ⟨rfl, rfl⟩, ?_⟩
    simp [initVoiceState, VOICE_STT_MAX_PCM_BYTES]
  refine ⟨hinit, ?_⟩
  intro t st line result h hinv
  simp only [handleVoiceSidebandLine] at h
  repeat' split at h
  all_goals
    first
    | exact Option.noConfusion h
    | (injection h with h2; subst h2;
        simp_all [VoiceInv, initVoiceState, VOICE_STT_MAX_PCM_BYTES])

/-- Witness for C10: preservation applied to a `cancel` frame from the
initial state, whose invariant is the theorem's own first conjunct. -/
theorem C10_witness : VoiceInv initVoiceState :=
  C10_voice_state_invariant.2 none initVoiceState (voiceSttReqMarker ++ "cancel")
    (initVoiceState, ⟨[], []⟩) rfl C10_voice_state_invariant.1

/-- C4: `validateBindSecurity(host, apiKey)` raises a startup error if and
only if the host is not a loopback host (not 127.0.0.1, localhost, ::1 or
bracketed ::1 after trimming and lower-casing) and no API key is
configured; for every loopback host, and for every host when an API key is
configured, it returns without error. -/
theorem C4_validate_bind_security (host : String) (apiKey : Option String) :
    (∃ msg, validate_bind_security host apiKey = Except.error msg) ↔
      (pyLower (pyStrip host) ∉ (["127.0.0.1", "localhost", "::1", "[::1]"] : List String)
        ∧ apiKey = none) := by
  cases apiKey with
  | none =>
    by_cases hm :
        pyLower (pyStrip host) ∈ (["127.0.0.1", "localhost", "::1", "[::1]"] : List String) <;>
      simp [validate_bind_security, is_loopback_host, hm]
  | some k =>
    by_cases hm :
        pyLower (pyStrip host) ∈ (["127.0.0.1", "localhost", "::1", "[::1]"] : List String) <;>
      simp [validate_bind_security, is_loopback_host, hm]

/-- C7: the spec and the repository's own tests
(`test_voice_stt_http_endpoint_success` and companions in
`test/host/test_web_relay.py`) have `POST /api/voice/stt` served when
voice STT is enabled, yet `do_POST` dispatches only `/api/chat` and
answers every other path — including `/api/voice/stt` with voice STT
enabled and the authorization gate passing — with 404 Not Found, never
invoking transcription.  This theorem evaluates the embedded handler at
such a request. -/
theorem C7_voice_stt_post_is_not_found :
    doPOST { apiKey := none, corsOrigin := none, voiceSttEnabled := true }
        (fun s => Except.ok s)
        { path := "/api/voice/stt", origin := none, host := some "127.0.0.1:8787",
          contentType := some "application/octet-stream", zclawKey := none,
          contentLength := some "4", bodyJson := none }
      = Except.ok { status := 404, body := "Not found", askedWith := none } := by
  rfl

/-- C8: for every Serial Bridge ask call serviced via the reader loop —
whatever the outcome (reply, timeout, transport failure on the write, or a
recorded reader error) — the correlation state published at the moment the
single-flight lock is released has an empty active-prompt slot and an
empty response queue, so no queued line from one call can be observed by
the next. -/
theorem C8_lock_release_clears_correlation (sentPrompt : String) (R I : Nat)
    (writeErr : Option String) (events : List AskEvent) (entry : CorrState) :
    (askViaReaderRun sentPrompt R I writeErr events entry).2
      = { activePrompt := none, queued := [] } :=
  rfl

/-- C9: the `cancel` sideband frame is idempotent — from any voice-capture
state one cancel, and a second consecutive cancel, leave the reset state
(not collecting, empty buffer, default 16000 Hz sample rate) and write no
response — and `close()` on an already-closed bridge is safe: both calls
return (never raise) and the second leaves the closed state unchanged. -/
theorem C9_cancel_and_close_idempotent (t : Option VoiceTranscriber) (st : VoiceState)
    (serialCloseFails : Bool) (cs : CloseSt) :
    handleVoiceSidebandLine t st (voiceSttReqMarker ++ "cancel")
        = some (initVoiceState, ⟨[], []⟩)
      ∧ handleVoiceSidebandLine t initVoiceState (voiceSttReqMarker ++ "cancel")
        = some (initVoiceState, ⟨[], []⟩)
      ∧ closeRun serialCloseFails cs = Except.ok closedBridgeSt
      ∧ closeRun serialCloseFails closedBridgeSt = Except.ok closedBridgeSt := by
  refine ⟨rfl, rfl, ?_, ?_⟩
  · cases cs with
    | mk s r ser => cases ser <;> cases serialCloseFails <;> rfl
  · rfl

/-- C6: while collecting with an in-bounds buffer, a chunk whose decoded
bytes push the accumulated PCM past the 512 KiB maximum resets the
capture state (collecting false, empty buffer) and writes an `err`
response; a subsequent `end` frame without an intervening `begin` then
writes `err` with payload `end without begin`, and the transcriber is
never invoked for the rejected capture. -/
theorem C6_oversized_chunk_resets (t : Option VoiceTranscriber) (rate : Int)
    (pcm : List Nat) (chunkStr : String) (chunkBytes : List Nat)
    (hdec : b64decodePy (pyStrip chunkStr) = some chunkBytes)
    (hbound : pcm.length ≤ VOICE_STT_MAX_PCM_BYTES)
    (hover : pcm.length + chunkBytes.length > VOICE_STT_MAX_PCM_BYTES) :
    handleVoiceSidebandLine t { collecting := true, sampleRateHz := rate, pcm := pcm }
        (voiceSttReqMarker ++ "chunk:" ++ chunkStr)
      = some (initVoiceState,
          ⟨["__zclaw_voice_stt_resp__:err:audio payload too large"], []⟩)
    ∧ handleVoiceSidebandLine t initVoiceState (voiceSttReqMarker ++ "end")
      = some (initVoiceState,
          ⟨["__zclaw_voice_stt_resp__:err:end without begin"], []⟩) := by
  constructor
  · have hne : pyStrip chunkStr ≠ "" := by
      intro h0
      rw [h0] at hdec
      have hb : chunkBytes = ([] : List Nat) :=
        (Option.some.inj (hdec : some ([] : List Nat) = some chunkBytes)).symm
      rw [hb] at hover
      simp only [List.length_nil] at hover
      omega
    rw [strAppend_assoc,
      handle_chunk_frame t _ chunkStr chunkBytes rfl hne hdec,
      if_pos (show (pcm ++ chunkBytes).length > VOICE_STT_MAX_PCM_BYTES by
        rw [List.length_append]; exact hover)]
    rfl
  · rfl

/-- Witness for C6: a buffer already at the maximum plus a 4-byte chunk. -/
theorem C6_witness :
    handleVoiceSidebandLine none
        { collecting := true, sampleRateHz := 16000,
          pcm := List.replicate VOICE_STT_MAX_PCM_BYTES 0 }
        (voiceSttReqMarker ++ "chunk:" ++ "AAECAw==")
      = some (initVoiceState,
          ⟨["__zclaw_voice_stt_resp__:err:audio payload too large"], []⟩)
    ∧ handleVoiceSidebandLine none initVoiceState (voiceSttReqMarker ++ "end")
      = some (initVoiceState,
          ⟨["__zclaw_voice_stt_resp__:err:end without begin"], []⟩) :=
  C6_oversized_chunk_resets none 16000 (List.replicate VOICE_STT_MAX_PCM_BYTES 0)
    "AAECAw==" [0, 1, 2, 3] (by decide)
    (by rw [List.length_replicate])
    (by rw [List.length_replicate]; simp only [List.length_cons, List.length_nil]; omega)

/-- C5: from the idle voice-capture state, the frames `begin:16000`, a
chunk carrying a base64 encoding of 4 bytes, and `end` invoke the
transcriber exactly once with exactly those 4 decoded bytes and sample
rate 16000 and write the single response `ok:` followed by the sanitized
transcript; a chunk frame with no begin collecting writes
`err:chunk without begin` and never invokes the transcriber. -/
theorem C5_voice_capture_roundtrip
    (f : List Nat → Int → Except String String) (chunkStr : String)
    (bytes : List Nat) (transcript : String)
    (hdec : b64decodePy (pyStrip chunkStr) = some bytes)
    (hlen : bytes.length = 4)
    (hf : f bytes 16000 = Except.ok transcript)
    (hsan : sanitize_voice_payload transcript ≠ "") :
    (runVoiceFrames (some f) initVoiceState
        [voiceSttReqMarker ++ "begin:16000",
         voiceSttReqMarker ++ "chunk:" ++ chunkStr,
         voiceSttReqMarker ++ "end"]).2
      = ⟨[voiceSttRespMarker ++ "ok:" ++ sanitize_voice_payload transcript],
          [(bytes, 16000)]⟩
    ∧ (runVoiceFrames (some f) initVoiceState
        [voiceSttReqMarker ++ "chunk:" ++ chunkStr]).2
      = ⟨["__zclaw_voice_stt_resp__:err:chunk without begin"], []⟩ := by
  have hne : pyStrip chunkStr ≠ "" := by
    intro h0
    rw [h0] at hdec
    have hb : bytes = ([] : List Nat) :=
      (Option.some.inj (hdec : some ([] : List Nat) = some bytes)).symm
    rw [hb] at hlen
    simp at hlen
  have hbne : bytes ≠ [] := by
    intro hb
    rw [hb] at hlen
    simp at hlen
  have step1 : handleVoiceSidebandLine (some f) initVoiceState
      (voiceSttReqMarker ++ "begin:16000")
      = some ({ collecting := true, sampleRateHz := 16000, pcm := [] }, ⟨[], []⟩) := rfl
  have step2 : handleVoiceSidebandLine (some f)
      { collecting := true, sampleRateHz := 16000, pcm := [] }
      (voiceSttReqMarker ++ ("chunk:" ++ chunkStr))
      = some ({ collecting := true, sampleRateHz := 16000, pcm := bytes }, ⟨[], []⟩) := by
    rw [handle_chunk_frame (some f) _ chunkStr bytes rfl hne hdec]
    rw [if_neg (show ¬((([] : List Nat) ++ bytes).length > VOICE_STT_MAX_PCM_BYTES) by
      simp only [List.nil_append, hlen, VOICE_STT_MAX_PCM_BYTES]; omega)]
    simp
  have step3 : handleVoiceSidebandLine (some f)
      { collecting := true, sampleRateHz := 16000, pcm := bytes }
      (voiceSttReqMarker ++ "end")
      = some (initVoiceState,
          ⟨[writeVoiceResponse true (sanitize_voice_payload transcript)],
            [(bytes, 16000)]⟩) := by
    simp only [handleVoiceSidebandLine, transcribeVoiceRequest]
    rw [if_pos (show pyStartsWith (voiceSttReqMarker ++ "end") voiceSttReqMarker = true
      from pyStartsWith_append _ _)]
    simp only [show pyDrop (voiceSttReqMarker ++ "end") voiceSttReqMarker.length = "end"
        from pyDrop_append _ _,
      show pyPartitionColon "end" = ("end", "") from rfl,
      show pyLower (pyStrip "end") = "end" from rfl]
    simp only [if_true]
    rw [if_neg (show ¬(bytes = []) from hbne), hf]
    simp [hsan]
  constructor
  · have h2 := step2
    rw [← strAppend_assoc] at h2
    simp only [runVoiceFrames, step1, h2, step3]
    simp only [List.nil_append, List.append_nil]
    rw [writeVoiceResponse_ok, sanitize_voice_payload_idem]
  · have hidle : handleVoiceSidebandLine (some f) initVoiceState
        (voiceSttReqMarker ++ ("chunk:" ++ chunkStr))
        = some (initVoiceState,
            ⟨[writeVoiceResponse false "chunk without begin"], []⟩) :=
      handle_chunk_frame_idle (some f) initVoiceState chunkStr rfl
    rw [← strAppend_assoc] at hidle
    simp only [runVoiceFrames, hidle]
    rfl

/-- Witness for C5 at the 4-byte payload 00 01 02 03 and a transcriber
returning a fixed transcript. -/
theorem C5_witness :
    (runVoiceFrames (some (fun _ _ => Except.ok " Hi there ")) initVoiceState
        [voiceSttReqMarker ++ "begin:16000",
         voiceSttReqMarker ++ "chunk:" ++ "AAECAw==",
         voiceSttReqMarker ++ "end"]).2
      = ⟨[voiceSttRespMarker ++ "ok:" ++ sanitize_voice_payload " Hi there "],
          [([0, 1, 2, 3], 16000)]⟩
    ∧ (runVoiceFrames (some (fun _ _ => Except.ok " Hi there ")) initVoiceState
        [voiceSttReqMarker ++ "chunk:" ++ "AAECAw=="]).2
      = ⟨["__zclaw_voice_stt_resp__:err:chunk without begin"], []⟩ :=
  C5_voice_capture_roundtrip (fun _ _ => Except.ok " Hi there ") "AAECAw=="
    [0, 1, 2, 3] " Hi there " (by decide) rfl rfl (by decide)

theorem askStep_echo (prompt : String) (R I : Nat) (l : String) (lines : List String)
    (now idl : Nat) (hne : l ≠ "") (hecho : pyStrip l = prompt) :
    askStep prompt R I (.lineEv l) false lines now idl = .cont true lines now idl := by
  simp only [askStep, if_neg hne, hecho]
  simp

theorem askStep_log (prompt : String) (R I : Nat) (l : String) (lines : List String)
    (now idl : Nat) (hlog : is_probable_esp_log_line l = true) :
    askStep prompt R I (.lineEv l) true lines now idl = .cont true lines now idl := by
  have hne : l ≠ "" := by
    intro h0
    rw [h0] at hlog
    exact absurd hlog (by decide)
  simp only [askStep, if_neg hne, hlog]
  simp

theorem askLoop_echo (prompt : String) (R I : Nat) (l : String) (rest : List AskEvent)
    (lines : List String) (now idl : Nat) (h : now < R) (hne : l ≠ "")
    (hecho : pyStrip l = prompt) :
    askLoop prompt R I (.lineEv l :: rest) false lines now idl
      = askLoop prompt R I rest true lines now idl := by
  simp only [askLoop, if_pos h, askStep_echo prompt R I l lines now idl hne hecho]

theorem askLoop_log (prompt : String) (R I : Nat) (l : String) (rest : List AskEvent)
    (lines : List String) (now idl : Nat) (h : now < R)
    (hlog : is_probable_esp_log_line l = true) :
    askLoop prompt R I (.lineEv l :: rest) true lines now idl
      = askLoop prompt R I rest true lines now idl := by
  simp only [askLoop, if_pos h, askStep_log prompt R I l lines now idl hlog]

/-- C1: for the sent prompt `hello`, if the reader delivers the echo line
`hello`, any firmware log line, `Hi there`, and a blank line, and the
queue then stays idle past the idle timeout (1.2 s, under the 90 s
response ceiling), `ask` returns exactly `Hi there`: neither the echo
line nor the log line reaches the returned reply. -/
theorem C1_echo_and_log_suppression (logLine : String)
    (hlog : is_probable_esp_log_line logLine = true) :
    askRun "hello" 90000 1200 none
        (AskEvent.lineEv "hello" :: AskEvent.lineEv logLine :: AskEvent.lineEv "Hi there" ::
          AskEvent.lineEv "" :: List.replicate 13 AskEvent.emptyEv)
      = Except.ok "Hi there" := by
  simp only [askRun, askViaReaderRun]
  rw [if_neg (show pyStrip "hello" ≠ "" by decide),
    show pyStrip "hello" = "hello" from rfl]
  rw [askLoop_echo "hello" 90000 1200 "hello" _ [] 0 1200 (by decide) (by decide) (by decide)]
  rw [askLoop_log "hello" 90000 1200 logLine _ [] 0 1200 (by decide) hlog]
  decide

/-- Witness for C1 at a concrete ESP-IDF info log line. -/
theorem C1_witness :
    askRun "hello" 90000 1200 none
        (AskEvent.lineEv "hello" :: AskEvent.lineEv "I (123) agent: Processing: hello" ::
          AskEvent.lineEv "Hi there" :: AskEvent.lineEv ""
          :: List.replicate 13 AskEvent.emptyEv)
      = Except.ok "Hi there" :=
  C1_echo_and_log_suppression "I (123) agent: Processing: hello" (by decide)

/-- C2: `ask` never returns an empty or whitespace-only reply — every
successful result still has content after stripping — and whenever the
collected response lines join and strip to the empty string (the no-line
case already raises inside the loop), `ask` raises `TimeoutError` instead
of returning. -/
theorem C2_never_empty_reply (prompt : String) (R I : Nat) (writeErr : Option String)
    (events : List AskEvent) :
    (∀ s, askRun prompt R I writeErr events = Except.ok s → pyStrip s ≠ "")
    ∧ (∀ L, pyStrip prompt ≠ "" →
        (askViaReaderRun (pyStrip prompt) R I writeErr events ⟨none, []⟩).1 = Except.ok L →
        pyStrip (String.intercalate "\n" L) = "" →
        askRun prompt R I writeErr events
          = Except.error (AskErr.timeout "No response text collected")) := by
  constructor
  · intro s hs
    simp only [askRun] at hs
    split at hs
    · exact absurd hs (by simp)
    · split at hs
      · exact absurd hs (by simp)
      · next L heq =>
        split at hs
        · exact absurd hs (by simp)
        · next hg =>
          rw [← Except.ok.inj hs, pyStrip_idem]
          exact hg
  · intro L hp hok hempty
    simp only [askRun]
    rw [if_neg hp, hok]
    simp only []
    rw [if_pos hempty]

/-- Witness for C2: a reply consisting of one whitespace-only line joins
and strips empty, and `ask` raises `TimeoutError`. -/
theorem C2_witness :
    askRun "hi" 1000 100 none [AskEvent.lineEv "hi", AskEvent.lineEv " "]
      = Except.error (AskErr.timeout "No response text collected") :=
  (C2_never_empty_reply "hi" 1000 100 none [AskEvent.lineEv "hi", AskEvent.lineEv " "]).2
    [" "] (by decide) (by decide) (by decide)

end ZClaw
